import Mathlib

/-!
# Particle effects engine: shallow embedding and verification

This file embeds the particle-pool effects engine of the repository
(`src/js/main.js`, `src/js/sceneManager.js`, `src/js/scene/SceneManager.js`,
`src/unnamed/part_000`, `src/unnamed/part_001`) into Lean and proves or
refutes the specified properties of its data model, trigger API, and
per-frame update.

JavaScript numbers are modelled as exact rationals (ℚ): every claim under
study is about control flow, ordering and field updates, none about
floating-point rounding.  `Math.random()` is modelled as an explicit stream
`rnd : ℕ → ℚ` of draws consumed left to right exactly as the source consumes
`Math.random()` calls; `Math.cos`, `Math.sin` and `Math.PI` are taken as
parameters since they only shape velocity values no claim depends on.
`a.distanceTo(b) < 5` is modelled as squared distance `< 25` (both sides are
nonnegative, so the comparisons agree).
-/

namespace Celebration

/-- A 3D vector, as used for `position`, `velocity`, `rotation` and
`rotationSpeed` (`THREE.Vector3` in the source). -/
structure Vec3 where
  x : ℚ
  y : ℚ
  z : ℚ
deriving DecidableEq, Repr

namespace Vec3

/-- Component-wise addition (`Vector3.add`). -/
def add (a b : Vec3) : Vec3 := ⟨a.x + b.x, a.y + b.y, a.z + b.z⟩

/-- Scalar multiplication (`Vector3.multiplyScalar`). -/
def smul (c : ℚ) (a : Vec3) : Vec3 := ⟨c * a.x, c * a.y, c * a.z⟩

/-- Squared Euclidean distance; the source's `a.distanceTo(b) < r` (with
`r ≥ 0`) is equivalent to `distSq a b < r^2`. -/
def distSq (a b : Vec3) : ℚ :=
  (a.x - b.x) ^ 2 + (a.y - b.y) ^ 2 + (a.z - b.z) ^ 2

/-- The zero vector (`new THREE.Vector3()`). -/
def zero : Vec3 := ⟨0, 0, 0⟩

end Vec3

/-- A pooled particle of the `main.js` / `sceneManager.js` /
`scene/SceneManager.js` variants: the mesh fields the engine mutates
(`position`, `rotation`, `material.opacity`) together with its `userData`
record (`type`, `active`, `velocity`, `rotationSpeed`, `originalPosition`),
cf. `createOptimizedParticles` (main.js:292-320) and `createParticles`
(scene/SceneManager.js:524-573). -/
structure Particle where
  position : Vec3
  rotation : Vec3
  opacity : ℚ
  type : String
  active : Bool
  velocity : Vec3
  rotationSpeed : Vec3
  originalPosition : Vec3
deriving DecidableEq, Repr

/-- A pooled particle of the `part_000` / `part_001` variants, whose
`userData` has a *scalar* `rotationSpeed` and **no** `originalPosition`
field (`createParticles`, part_000:297-330, part_001:324-357).  The field
`originalPosition` below records the particle's creation position so the
spec's park-invariant claim can be stated; `updateParticleSimple` neither
reads nor writes it, exactly as the source update never touches the
creation position. -/
structure SimpleParticle where
  position : Vec3
  rotation : Vec3
  opacity : ℚ
  type : String
  active : Bool
  velocity : Vec3
  rotationSpeed : ℚ
  originalPosition : Vec3
deriving DecidableEq, Repr

/-- Position after the explicit-Euler integration step
`particle.position.add(velocity.clone().multiplyScalar(deltaTime))`,
common to every variant of `updateParticles`. -/
def integratedPos (dt : ℚ) (position velocity : Vec3) : Vec3 :=
  position.add (Vec3.smul dt velocity)

/-- Faded opacity of the main.js first variant and sceneManager.js:
`Math.max(0, opacity - deltaTime * 0.4)` (main.js:716, sceneManager.js:752). -/
def fadedOpMain (dt op : ℚ) : ℚ := max 0 (op - dt * 0.4)

/-- Faded opacity of the main.js second variant and scene/SceneManager.js:
`Math.max(0, opacity - deltaTime * 0.3)` (main.js:2193,
scene/SceneManager.js:947). -/
def fadedOp03 (dt op : ℚ) : ℚ := max 0 (op - dt * 0.3)

/-- Per-particle body of `updateParticles` in main.js:701-724 and (textually
identical) sceneManager.js:733-761: skip inactive particles; integrate
position; `velocity.y -= 8 * deltaTime`; `velocity *= 0.98`; advance
rotation by `rotationSpeed` (no `deltaTime`); fade opacity by `0.4 *
deltaTime` clamped at 0; retire when `position.y < -8 || opacity <= 0`,
setting `active = false`, `opacity = 0`, `position = originalPosition`. -/
def updateParticle (dt : ℚ) (p : Particle) : Particle :=
  if p.active then
    let pos := integratedPos dt p.position p.velocity
    let vel := Vec3.smul 0.98 ⟨p.velocity.x, p.velocity.y - 8 * dt, p.velocity.z⟩
    let rot := p.rotation.add p.rotationSpeed
    let op := fadedOpMain dt p.opacity
    if pos.y < -8 ∨ op ≤ 0 then
      { p with position := p.originalPosition, rotation := rot, opacity := 0,
               active := false, velocity := vel }
    else
      { p with position := pos, rotation := rot, opacity := op, velocity := vel }
  else p

/-- Per-particle body of the second `updateParticles` variant in
main.js:2178-2201: gravity `8 * deltaTime`, drag `0.98`, fade `0.3 *
deltaTime` clamped at 0, retirement when
`position.y < -10 || opacity <= 0.1`, restoring `originalPosition`. -/
def updateParticleV2 (dt : ℚ) (p : Particle) : Particle :=
  if p.active then
    let pos := integratedPos dt p.position p.velocity
    let vel := Vec3.smul 0.98 ⟨p.velocity.x, p.velocity.y - 8 * dt, p.velocity.z⟩
    let rot := p.rotation.add p.rotationSpeed
    let op := fadedOp03 dt p.opacity
    if pos.y < -10 ∨ op ≤ 0.1 then
      { p with position := p.originalPosition, rotation := rot, opacity := 0,
               active := false, velocity := vel }
    else
      { p with position := pos, rotation := rot, opacity := op, velocity := vel }
  else p

/-- Per-particle body of `updateParticles` in scene/SceneManager.js:928-956:
gravity `9.8 * deltaTime * 0.1`, drag `0.995`, fade `0.3 * deltaTime`
clamped at 0, retirement when `position.y < -10 || opacity <= 0`,
restoring `originalPosition`. -/
def updateParticleSM (dt : ℚ) (p : Particle) : Particle :=
  if p.active then
    let pos := integratedPos dt p.position p.velocity
    let vel := Vec3.smul 0.995 ⟨p.velocity.x, p.velocity.y - 9.8 * dt * 0.1, p.velocity.z⟩
    let rot := p.rotation.add p.rotationSpeed
    let op := fadedOp03 dt p.opacity
    if pos.y < -10 ∨ op ≤ 0 then
      { p with position := p.originalPosition, rotation := rot, opacity := 0,
               active := false, velocity := vel }
    else
      { p with position := pos, rotation := rot, opacity := op, velocity := vel }
  else p

/-- Per-particle body of `updateParticles` in part_000:469-493 and
(textually identical) part_001:564-581: gravity `9.8 * deltaTime * 0.1`,
no drag, `rotation.z += rotationSpeed`, unclamped fade
`opacity -= deltaTime * 0.5`, retirement when
`position.y < -5 || opacity <= 0`, setting `active = false` and
`opacity = 0` but leaving `position` at the integrated location (the
source restores no rest position and its `userData` has none). -/
def updateParticleSimple (dt : ℚ) (p : SimpleParticle) : SimpleParticle :=
  if p.active then
    let pos := integratedPos dt p.position p.velocity
    let vel : Vec3 := ⟨p.velocity.x, p.velocity.y - 9.8 * dt * 0.1, p.velocity.z⟩
    let rot : Vec3 := ⟨p.rotation.x, p.rotation.y, p.rotation.z + p.rotationSpeed⟩
    let op := p.opacity - dt * 0.5
    if pos.y < -5 ∨ op ≤ 0 then
      { p with position := pos, rotation := rot, opacity := 0,
               active := false, velocity := vel }
    else
      { p with position := pos, rotation := rot, opacity := op, velocity := vel }
  else p

/-- Whole-pool `updateParticles` (the `forEach` loop): every variant maps
its per-particle body over `this.objects.particles`. -/
def updateParticles (dt : ℚ) (pool : List Particle) : List Particle :=
  pool.map (updateParticle dt)

/-- Iterated per-frame updates of the main.js first variant with a fixed
`deltaTime`, as produced by the render loop calling `update(deltaTime)`
once per frame. -/
def updateIter (dt : ℚ) : ℕ → Particle → Particle
  | 0, p => p
  | n + 1, p => updateIter dt n (updateParticle dt p)

/-- Number of particles with `active == true` in the pool (`count(active)`
in the spec's pool-conservation property). -/
def countActive (pool : List Particle) : ℕ := (pool.filter (·.active)).length

/-- One gentle-rain activation (main.js:407-419): the particle is claimed
with opacity `0.8`, a randomized elevated position and a small downward
velocity, consuming the six random draws `rnd i`, …, `rnd (i+5)` in source
order (position x, y, z, then velocity x, y, z). -/
def gentleActivate (rnd : ℕ → ℚ) (i : ℕ) (p : Particle) : Particle :=
  { p with active := true, opacity := 0.8,
           position := ⟨(rnd i - 0.5) * 20, 12 + rnd (i + 1) * 3, (rnd (i + 2) - 0.5) * 20⟩,
           velocity := ⟨(rnd (i + 3) - 0.5) * 1, -1.5 - rnd (i + 4), (rnd (i + 5) - 0.5) * 1⟩ }

/-- The `forEach` of `triggerGentleConfetti` (main.js:400-423), threading
the running `activeCount` and the index of the next unconsumed random
draw.  The guard `if (activeCount > cap) return` skips a particle exactly
when the count already exceeds `cap`; `cap` is the literal `25` in
main.js:405 (and `30` in the second variant, main.js:1758). -/
def gentleAux (cap : ℕ) (rnd : ℕ → ℚ) : ℕ → ℕ → List Particle → List Particle
  | _, _, [] => []
  | cnt, i, p :: ps =>
    if cap < cnt then p :: gentleAux cap rnd cnt i ps
    else gentleActivate rnd i p :: gentleAux cap rnd (cnt + 1) (i + 6) ps

/-- Embedding of `triggerGentleConfetti` (main.js:400-423), with its literal cap 25. -/
def triggerGentleConfetti (rnd : ℕ → ℚ) (pool : List Particle) : List Particle :=
  gentleAux 25 rnd 0 0 pool

/-- One mega-confetti activation (main.js:377-397): every particle is
claimed with opacity `1` at `(0, 8, 0)`, an outward ring velocity built
from `Math.cos`/`Math.sin`/`Math.PI` (passed in as `mcos`/`msin`/`mpi`),
and a random rotation speed, consuming six draws in source order
(angle, speed, height, rotation x, y, z). -/
def megaActivate (mcos msin : ℚ → ℚ) (mpi : ℚ) (rnd : ℕ → ℚ) (i : ℕ) (p : Particle) :
    Particle :=
  let angle := rnd i * mpi * 2
  let speed := 4 + rnd (i + 1) * 4
  let height := rnd (i + 2) * 6 + 3
  { p with active := true, opacity := 1, position := ⟨0, 8, 0⟩,
           velocity := ⟨mcos angle * speed, height, msin angle * speed⟩,
           rotationSpeed := ⟨(rnd (i + 3) - 0.5) * 0.4, (rnd (i + 4) - 0.5) * 0.4,
                             (rnd (i + 5) - 0.5) * 0.4⟩ }

/-- The `forEach` of `triggerMegaConfetti` (main.js:374-398): every
particle in the pool is activated; each iteration consumes six draws. -/
def megaAux (mcos msin : ℚ → ℚ) (mpi : ℚ) (rnd : ℕ → ℚ) :
    ℕ → List Particle → List Particle
  | _, [] => []
  | i, p :: ps => megaActivate mcos msin mpi rnd i p :: megaAux mcos msin mpi rnd (i + 6) ps

/-- Embedding of `triggerMegaConfetti` (main.js:374-398). -/
def triggerMegaConfetti (mcos msin : ℚ → ℚ) (mpi : ℚ) (rnd : ℕ → ℚ)
    (pool : List Particle) : List Particle :=
  megaAux mcos msin mpi rnd 0 pool

/-- One localized-burst activation (scene/SceneManager.js:814-826): the
particle is claimed with opacity `1` at the burst point plus a random
jitter in `±1 × [0,2] × ±1`, and an outward random velocity, consuming six
draws in source order. -/
def burstActivate (center : Vec3) (rnd : ℕ → ℚ) (i : ℕ) (p : Particle) : Particle :=
  { p with active := true, opacity := 1,
           position := center.add ⟨(rnd i - 0.5) * 2, rnd (i + 1) * 2, (rnd (i + 2) - 0.5) * 2⟩,
           velocity := ⟨(rnd (i + 3) - 0.5) * 4, rnd (i + 4) * 4 + 2, (rnd (i + 5) - 0.5) * 4⟩ }

/-- The `forEach` of `createParticleBurst` (scene/SceneManager.js:806-830):
a particle is skipped when it is already active or `activatedCount > cap`
(`cap` is the literal `15` in line 810); among the remaining ones, those
within distance 5 of the burst point (`distSq < 25`) are activated and
counted. -/
def burstAux (cap : ℕ) (center : Vec3) (rnd : ℕ → ℚ) :
    ℕ → ℕ → List Particle → List Particle
  | _, _, [] => []
  | cnt, i, p :: ps =>
    if p.active = true ∨ cap < cnt then p :: burstAux cap center rnd cnt i ps
    else if Vec3.distSq p.position center < 25 then
      burstActivate center rnd i p :: burstAux cap center rnd (cnt + 1) (i + 6) ps
    else p :: burstAux cap center rnd cnt i ps

/-- Embedding of `createParticleBurst` (scene/SceneManager.js:806-830), with
its literal cap 15. -/
def createParticleBurst (center : Vec3) (rnd : ℕ → ℚ) (pool : List Particle) :
    List Particle :=
  burstAux 15 center rnd 0 0 pool

/-- The particle part of `quickReset` (main.js:636-640,
sceneManager.js:662-666): `active = false`, `opacity = 0`,
`position.copy(originalPosition)`. -/
def resetParticle (p : Particle) : Particle :=
  { p with active := false, opacity := 0, position := p.originalPosition }

/-- A balloon as touched by `quickReset` (main.js:610-615). -/
structure Balloon where
  visible : Bool
  userVisible : Bool
  scale : Vec3
  rotation : Vec3
deriving DecidableEq, Repr

/-- The cake as touched by `quickReset` (main.js:617-623). -/
structure Cake where
  visible : Bool
  userVisible : Bool
  scale : Vec3
  rotation : Vec3
  positionY : ℚ
deriving DecidableEq, Repr

/-- The text sprite as touched by `quickReset` (main.js:625-628). -/
structure TextSprite where
  visible : Bool
  scale : Vec3
deriving DecidableEq, Repr

/-- A star as touched by `quickReset` (main.js:630-634). -/
structure Star where
  visible : Bool
  userVisible : Bool
  scale : Vec3
deriving DecidableEq, Repr

/-- The scene state `quickReset` operates on (`this.objects`): the cake and
text are optional (`if (this.objects.cake)`, `if (this.objects.text)`). -/
structure SceneObjects where
  balloons : List Balloon
  cake : Option Cake
  text : Option TextSprite
  stars : List Star
  particles : List Particle
deriving DecidableEq, Repr

/-- Balloon part of `quickReset` (main.js:610-615). -/
def resetBalloon (b : Balloon) : Balloon :=
  { b with visible := false, userVisible := false, scale := ⟨1, 1, 1⟩,
           rotation := ⟨0, 0, 0⟩ }

/-- Cake part of `quickReset` (main.js:617-623). -/
def resetCake (c : Cake) : Cake :=
  { c with visible := false, userVisible := false, scale := ⟨1, 1, 1⟩,
           rotation := ⟨0, 0, 0⟩, positionY := -1 }

/-- Text part of `quickReset` (main.js:625-628). -/
def resetText (t : TextSprite) : TextSprite :=
  { t with visible := false, scale := ⟨8, 2, 1⟩ }

/-- Star part of `quickReset` (main.js:630-634). -/
def resetStar (s : Star) : Star :=
  { s with visible := false, userVisible := false, scale := ⟨1, 1, 1⟩ }

/-- Embedding of `quickReset` (main.js:607-641 and, identically on these
fields, sceneManager.js:628-667). -/
def quickReset (s : SceneObjects) : SceneObjects :=
  { balloons := s.balloons.map resetBalloon,
    cake := s.cake.map resetCake,
    text := s.text.map resetText,
    stars := s.stars.map resetStar,
    particles := s.particles.map resetParticle }

/-- The particle pool as built by `createOptimizedParticles`
(main.js:292-320): `maxParticles` particles parked at `(0, 10, 0)` with
opacity 0, inactive, zero velocity and rotation speed (material colors are
cosmetic and not modelled). -/
def createOptimizedParticles (n : ℕ) : List Particle :=
  List.replicate n
    { position := ⟨0, 10, 0⟩, rotation := Vec3.zero, opacity := 0,
      type := "confetti", active := false, velocity := Vec3.zero,
      rotationSpeed := Vec3.zero, originalPosition := ⟨0, 10, 0⟩ }

/-- One engine operation on the pool: the trigger API (`storm` is a
scheduled sequence of `mega` operations, so it is covered by operation
sequences), the per-frame update, and the reset.  Each trigger carries the
random draws (and, for `mega`, the host math functions) it consumes. -/
inductive Op where
  | mega (mcos msin : ℚ → ℚ) (mpi : ℚ) (rnd : ℕ → ℚ)
  | gentle (rnd : ℕ → ℚ)
  | burst (center : Vec3) (rnd : ℕ → ℚ)
  | update (dt : ℚ)
  | reset

/-- Interpretation of one operation on the particle pool. -/
def applyOp : Op → List Particle → List Particle
  | .mega mcos msin mpi rnd, pool => triggerMegaConfetti mcos msin mpi rnd pool
  | .gentle rnd, pool => triggerGentleConfetti rnd pool
  | .burst c rnd, pool => createParticleBurst c rnd pool
  | .update dt, pool => updateParticles dt pool
  | .reset, pool => pool.map resetParticle

/-- Interpretation of a sequence of operations, first to last. -/
def applyOps (ops : List Op) (pool : List Particle) : List Particle :=
  ops.foldl (fun acc op => applyOp op acc) pool

/-- A concrete burst-activated particle: opacity 1, falling fast enough to
cross the floor in one frame at `dt = 1`. -/
def pBurst : Particle :=
  { position := ⟨0, 8, 0⟩, rotation := Vec3.zero, opacity := 1,
    type := "confetti", active := true, velocity := ⟨0, -20, 0⟩,
    rotationSpeed := Vec3.zero, originalPosition := ⟨0, 10, 0⟩ }

/-- A concrete parked (inactive) particle of the main.js pool. -/
def pParked : Particle :=
  { position := ⟨0, 10, 0⟩, rotation := Vec3.zero, opacity := 0,
    type := "confetti", active := false, velocity := Vec3.zero,
    rotationSpeed := Vec3.zero, originalPosition := ⟨0, 10, 0⟩ }

/-- A concrete active particle that fades but stays above the floor:
opacity `0.35`, zero velocity. -/
def pFade : Particle :=
  { position := ⟨0, 0, 0⟩, rotation := Vec3.zero, opacity := 0.35,
    type := "confetti", active := true, velocity := Vec3.zero,
    rotationSpeed := Vec3.zero, originalPosition := ⟨0, 10, 0⟩ }

/-- A concrete active particle used for the kind-noninterference analysis
(kind tag `"confetti"`). -/
def pKindA : Particle :=
  { position := ⟨0, 0, 0⟩, rotation := Vec3.zero, opacity := 1,
    type := "confetti", active := true, velocity := ⟨0, -100, 0⟩,
    rotationSpeed := Vec3.zero, originalPosition := ⟨0, 10, 0⟩ }

/-- Same kinematic state as `pKindA` but kind tag `"heart"` and a different
rest position. -/
def pKindB : Particle :=
  { position := ⟨0, 0, 0⟩, rotation := Vec3.zero, opacity := 1,
    type := "heart", active := true, velocity := ⟨0, -100, 0⟩,
    rotationSpeed := Vec3.zero, originalPosition := ⟨5, 10, 0⟩ }

/-- Same state as `pKindA` (including the rest position) except the kind
tag. -/
def pKindC : Particle :=
  { position := ⟨0, 0, 0⟩, rotation := Vec3.zero, opacity := 1,
    type := "heart", active := true, velocity := ⟨0, -100, 0⟩,
    rotationSpeed := Vec3.zero, originalPosition := ⟨0, 10, 0⟩ }

/-- A concrete active part_000/part_001 particle created at `(0, 10, 0)`
and falling fast enough to cross the `-5` floor in one frame at `dt = 1`. -/
def sFall : SimpleParticle :=
  { position := ⟨0, 10, 0⟩, rotation := Vec3.zero, opacity := 1,
    type := "confetti", active := true, velocity := ⟨0, -20, 0⟩,
    rotationSpeed := 0, originalPosition := ⟨0, 10, 0⟩ }

/-- A concrete inactive part_000/part_001 particle. -/
def sParked : SimpleParticle :=
  { position := ⟨1, 2, 3⟩, rotation := Vec3.zero, opacity := 0,
    type := "confetti", active := false, velocity := Vec3.zero,
    rotationSpeed := 0, originalPosition := ⟨1, 2, 3⟩ }

/-- A concrete random stream returning `1/2` on every draw. -/
def rndHalf : ℕ → ℚ := fun _ => 1/2

/-- Inactive particles are returned unchanged by the main.js /
sceneManager.js update body (the early `return` at main.js:703). -/
theorem updateParticle_inactive (dt : ℚ) (p : Particle) (h : p.active = false) :
    updateParticle dt p = p := by
  simp [updateParticle, h]

/-- Inactive particles are returned unchanged by the part_000/part_001
update body (the early `return` at part_001:566). -/
theorem updateParticleSimple_inactive (dt : ℚ) (p : SimpleParticle)
    (h : p.active = false) : updateParticleSimple dt p = p := by
  simp [updateParticleSimple, h]

/-- Iterating the main.js update leaves an inactive particle unchanged. -/
theorem updateIter_inactive (dt : ℚ) (n : ℕ) (p : Particle) (h : p.active = false) :
    updateIter dt n p = p := by
  induction n with
  | zero => rfl
  | succ n ih =>
      show updateIter dt n (updateParticle dt p) = p
      rw [updateParticle_inactive dt p h]
      exact ih

/-- A particle still active after one main.js update step was active
before, kept strictly positive opacity, and lost exactly
`0.4 * deltaTime` of opacity. -/
theorem updateParticle_survivor (dt : ℚ) (p : Particle)
    (h2 : (updateParticle dt p).active = true) :
    p.active = true ∧
    (updateParticle dt p).opacity = p.opacity - dt * 0.4 ∧
    0 < p.opacity - dt * 0.4 := by
  by_cases h : p.active = true
  · refine ⟨h, ?_⟩
    simp only [updateParticle, h, if_true] at h2 ⊢
    split_ifs at h2 ⊢ with hc
    push_neg at hc
    have hop : 0 < fadedOpMain dt p.opacity := hc.2
    have hx : 0 < p.opacity - dt * 0.4 := by
      rcases lt_max_iff.mp hop with h' | h'
      · exact absurd h' (lt_irrefl 0)
      · exact h'
    refine ⟨?_, hx⟩
    simp [fadedOpMain, max_eq_right hx.le]
  · rw [updateParticle_inactive dt p (by simpa using h)] at h2
    exact absurd h2 h

/-- A particle still active after one scene/SceneManager.js update step was
active before, kept strictly positive opacity, and lost exactly
`0.3 * deltaTime` of opacity. -/
theorem updateParticleSM_survivor (dt : ℚ) (p : Particle)
    (h2 : (updateParticleSM dt p).active = true) :
    p.active = true ∧
    (updateParticleSM dt p).opacity = p.opacity - dt * 0.3 ∧
    0 < p.opacity - dt * 0.3 := by
  by_cases h : p.active = true
  · refine ⟨h, ?_⟩
    simp only [updateParticleSM, h, if_true] at h2 ⊢
    split_ifs at h2 ⊢ with hc
    push_neg at hc
    have hop : 0 < fadedOp03 dt p.opacity := hc.2
    have hx : 0 < p.opacity - dt * 0.3 := by
      rcases lt_max_iff.mp hop with h' | h'
      · exact absurd h' (lt_irrefl 0)
      · exact h'
    refine ⟨?_, hx⟩
    simp [fadedOp03, max_eq_right hx.le]
  · have hfix : updateParticleSM dt p = p := by
      simp [updateParticleSM, h]
    rw [hfix] at h2
    exact absurd h2 h

/-- C10.  Frame property of the update on inactive particles: a per-frame
update call leaves every particle with `active == false` completely
unchanged — position, velocity, rotation, opacity and the active flag are
identical — for every `deltaTime`, in the main.js / sceneManager.js
variant and in the part_000/part_001 variant. -/
theorem update_frames_inactive (dt : ℚ) (p : Particle) (q : SimpleParticle)
    (hp : p.active = false) (hq : q.active = false) :
    updateParticle dt p = p ∧ updateParticleSimple dt q = q :=
  ⟨updateParticle_inactive dt p hp, updateParticleSimple_inactive dt q hq⟩

/-- Witness for C10: the concrete parked particles are untouched by an
update at `dt = 1`. -/
theorem update_frames_inactive_witness :
    pParked.active = false ∧ sParked.active = false ∧
    (updateParticle 1 pParked = pParked ∧ updateParticleSimple 1 sParked = sParked) :=
  ⟨rfl, rfl, update_frames_inactive 1 pParked sParked rfl rfl⟩

/-- C7.  Opacity monotonicity: over a single update call with
`0 ≤ deltaTime`, every particle active both before and after the call has
final opacity at most its initial opacity, in the main.js first variant
and the scene/SceneManager.js variant. -/
theorem opacity_monotone (dt : ℚ) (p q : Particle) (hdt : 0 ≤ dt)
    (hp : p.active = true) (hq : q.active = true) :
    ((updateParticle dt p).active = true →
      (updateParticle dt p).opacity ≤ p.opacity) ∧
    ((updateParticleSM dt q).active = true →
      (updateParticleSM dt q).opacity ≤ q.opacity) := by
  constructor
  · intro h2
    obtain ⟨-, heq, -⟩ := updateParticle_survivor dt p h2
    rw [heq]
    nlinarith
  · intro h2
    obtain ⟨-, heq, -⟩ := updateParticleSM_survivor dt q h2
    rw [heq]
    nlinarith

/-- Witness for C7 at `dt = 1` on a concrete active particle. -/
theorem opacity_monotone_witness :
    (0 : ℚ) ≤ 1 ∧ pBurst.active = true ∧
    (((updateParticle 1 pBurst).active = true →
       (updateParticle 1 pBurst).opacity ≤ pBurst.opacity) ∧
     ((updateParticleSM 1 pBurst).active = true →
       (updateParticleSM 1 pBurst).opacity ≤ pBurst.opacity)) :=
  ⟨by norm_num, rfl, opacity_monotone 1 pBurst pBurst (by norm_num) rfl rfl⟩

/-- C8.  Idempotent reset: for every scene state, `quickReset` applied
twice yields exactly the state `quickReset` yields once, on every field it
touches (balloons, cake, text, stars, and the particle pool's active
flags, opacities and positions). -/
theorem quickReset_idempotent (s : SceneObjects) :
    quickReset (quickReset s) = quickReset s := by
  have hb : resetBalloon ∘ resetBalloon = resetBalloon := funext fun b => rfl
  have hc : resetCake ∘ resetCake = resetCake := funext fun c => rfl
  have ht : resetText ∘ resetText = resetText := funext fun t => rfl
  have hs : resetStar ∘ resetStar = resetStar := funext fun st => rfl
  have hp : resetParticle ∘ resetParticle = resetParticle := funext fun p => rfl
  simp [quickReset, List.map_map, Option.map_map, hb, hc, ht, hs, hp]

/-- Counterexample to C9 as stated: `pKindA` and `pKindB` agree on the
claim's whole kinematic list (position, velocity, rotation, rotationSpeed,
opacity, active) and differ in kind tag, yet one main.js update step at
`dt = 1` yields different positions — the retirement position is read from
`originalPosition`, a field the claim's list omits. -/
theorem kind_noninterference_counterexample :
    pKindA.position = pKindB.position ∧ pKindA.velocity = pKindB.velocity ∧
    pKindA.rotation = pKindB.rotation ∧ pKindA.rotationSpeed = pKindB.rotationSpeed ∧
    pKindA.opacity = pKindB.opacity ∧ pKindA.active = pKindB.active ∧
    pKindA.type ≠ pKindB.type ∧
    (updateParticle 1 pKindA).position ≠ (updateParticle 1 pKindB).position := by
  refine ⟨rfl, rfl, rfl, rfl, rfl, rfl, by simp [pKindA, pKindB], ?_⟩
  norm_num [updateParticle, pKindA, pKindB, integratedPos, fadedOpMain,
    Vec3.add, Vec3.smul, Vec3.zero, Vec3.mk.injEq]

/-- C9 (amended).  Kind-noninterference of the update loop: two particles
that agree on kinematic state (position, velocity, rotation,
rotationSpeed, opacity, active) *and* on `originalPosition` but differ in
kind tag are mapped by one update step to states agreeing on all those
fields, in the main.js variant; in the part_000/part_001 variant agreement
on the kinematic list alone already suffices.  The update reads the kind
tag in neither variant. -/
theorem kind_noninterference (dt : ℚ) (p q : Particle) (r s : SimpleParticle)
    (h1 : p.position = q.position) (h2 : p.velocity = q.velocity)
    (h3 : p.rotation = q.rotation) (h4 : p.rotationSpeed = q.rotationSpeed)
    (h5 : p.opacity = q.opacity) (h6 : p.active = q.active)
    (h7 : p.originalPosition = q.originalPosition)
    (k1 : r.position = s.position) (k2 : r.velocity = s.velocity)
    (k3 : r.rotation = s.rotation) (k4 : r.rotationSpeed = s.rotationSpeed)
    (k5 : r.opacity = s.opacity) (k6 : r.active = s.active) :
    ((updateParticle dt p).position = (updateParticle dt q).position ∧
     (updateParticle dt p).velocity = (updateParticle dt q).velocity ∧
     (updateParticle dt p).rotation = (updateParticle dt q).rotation ∧
     (updateParticle dt p).rotationSpeed = (updateParticle dt q).rotationSpeed ∧
     (updateParticle dt p).opacity = (updateParticle dt q).opacity ∧
     (updateParticle dt p).active = (updateParticle dt q).active) ∧
    ((updateParticleSimple dt r).position = (updateParticleSimple dt s).position ∧
     (updateParticleSimple dt r).velocity = (updateParticleSimple dt s).velocity ∧
     (updateParticleSimple dt r).rotation = (updateParticleSimple dt s).rotation ∧
     (updateParticleSimple dt r).rotationSpeed = (updateParticleSimple dt s).rotationSpeed ∧
     (updateParticleSimple dt r).opacity = (updateParticleSimple dt s).opacity ∧
     (updateParticleSimple dt r).active = (updateParticleSimple dt s).active) := by
  obtain ⟨a1, a2, a3, t1, a5, a6, a7, a8⟩ := p
  obtain ⟨b1, b2, b3, t2, b5, b6, b7, b8⟩ := q
  obtain ⟨c1, c2, c3, u1, c5, c6, c7, c8⟩ := r
  obtain ⟨d1, d2, d3, u2, d5, d6, d7, d8⟩ := s
  simp only at h1 h2 h3 h4 h5 h6 h7 k1 k2 k3 k4 k5 k6
  subst h1 h2 h3 h4 h5 h6 h7 k1 k2 k3 k4 k5 k6
  constructor
  · simp only [updateParticle]
    split_ifs <;> simp
  · simp only [updateParticleSimple]
    split_ifs <;> simp

/-- Witness for C9 on the concrete pair `pKindA` / `pKindC` (equal up to
the kind tag) and a part_000/part_001 pair differing in kind tag and
creation position. -/
theorem kind_noninterference_witness :
    pKindA.type ≠ pKindC.type ∧
    (((updateParticle 1 pKindA).position = (updateParticle 1 pKindC).position ∧
      (updateParticle 1 pKindA).velocity = (updateParticle 1 pKindC).velocity ∧
      (updateParticle 1 pKindA).rotation = (updateParticle 1 pKindC).rotation ∧
      (updateParticle 1 pKindA).rotationSpeed = (updateParticle 1 pKindC).rotationSpeed ∧
      (updateParticle 1 pKindA).opacity = (updateParticle 1 pKindC).opacity ∧
      (updateParticle 1 pKindA).active = (updateParticle 1 pKindC).active) ∧
     ((updateParticleSimple 1 sFall).position = (updateParticleSimple 1 sFall).position ∧
      (updateParticleSimple 1 sFall).velocity = (updateParticleSimple 1 sFall).velocity ∧
      (updateParticleSimple 1 sFall).rotation = (updateParticleSimple 1 sFall).rotation ∧
      (updateParticleSimple 1 sFall).rotationSpeed = (updateParticleSimple 1 sFall).rotationSpeed ∧
      (updateParticleSimple 1 sFall).opacity = (updateParticleSimple 1 sFall).opacity ∧
      (updateParticleSimple 1 sFall).active = (updateParticleSimple 1 sFall).active)) :=
  ⟨by simp [pKindA, pKindC],
   kind_noninterference 1 pKindA pKindC sFall sFall
     rfl rfl rfl rfl rfl rfl rfl rfl rfl rfl rfl rfl rfl⟩

/-- Counterexample to C1 as stated: in the part_000/part_001 variant a
particle that retires naturally (here by falling through the `-5` floor at
`dt = 1`) ends the update inactive with opacity 0 but with its position at
the fallen location, not at its creation/rest position. -/
theorem park_invariant_counterexample :
    sFall.active = true ∧ sFall.position = sFall.originalPosition ∧
    (updateParticleSimple 1 sFall).active = false ∧
    (updateParticleSimple 1 sFall).opacity = 0 ∧
    (updateParticleSimple 1 sFall).position ≠ sFall.originalPosition := by
  refine ⟨rfl, rfl, ?_, ?_, ?_⟩ <;>
    norm_num [updateParticleSimple, sFall, integratedPos, Vec3.add, Vec3.smul,
      Vec3.zero, Vec3.mk.injEq]

/-- C1 (amended).  Park invariant after natural retirement: in the main.js
/ sceneManager.js variant, a particle active before a per-frame update and
inactive after it ends with `position == originalPosition` and
`opacity == 0`; in the part_000/part_001 variant such a particle ends with
`opacity == 0` but keeps its integrated (fallen) position, which that
variant never restores. -/
theorem park_invariant (dt : ℚ) (p : Particle) (q : SimpleParticle)
    (hp : p.active = true) (hp2 : (updateParticle dt p).active = false)
    (hq : q.active = true) (hq2 : (updateParticleSimple dt q).active = false) :
    ((updateParticle dt p).position = p.originalPosition ∧
     (updateParticle dt p).opacity = 0) ∧
    ((updateParticleSimple dt q).opacity = 0 ∧
     (updateParticleSimple dt q).position = integratedPos dt q.position q.velocity) := by
  constructor
  · simp only [updateParticle, hp, if_true] at hp2 ⊢
    split_ifs at hp2 ⊢ with hc
    all_goals first
    | exact ⟨rfl, rfl⟩
    | simp at hp2
  · simp only [updateParticleSimple, hq, if_true] at hq2 ⊢
    split_ifs at hq2 ⊢ with hc
    all_goals first
    | exact ⟨rfl, rfl⟩
    | simp at hq2

/-- Witness for C1 on concrete retiring particles at `dt = 1`. -/
theorem park_invariant_witness :
    pBurst.active = true ∧ (updateParticle 1 pBurst).active = false ∧
    sFall.active = true ∧ (updateParticleSimple 1 sFall).active = false ∧
    (((updateParticle 1 pBurst).position = pBurst.originalPosition ∧
      (updateParticle 1 pBurst).opacity = 0) ∧
     ((updateParticleSimple 1 sFall).opacity = 0 ∧
      (updateParticleSimple 1 sFall).position = integratedPos 1 sFall.position sFall.velocity)) :=
  ⟨rfl,
   by norm_num [updateParticle, pBurst, integratedPos, fadedOpMain, Vec3.add,
     Vec3.smul, Vec3.zero],
   rfl,
   by norm_num [updateParticleSimple, sFall, integratedPos, Vec3.add, Vec3.smul,
     Vec3.zero],
   park_invariant 1 pBurst sFall rfl
     (by norm_num [updateParticle, pBurst, integratedPos, fadedOpMain, Vec3.add,
       Vec3.smul, Vec3.zero])
     rfl
     (by norm_num [updateParticleSimple, sFall, integratedPos, Vec3.add, Vec3.smul,
       Vec3.zero])⟩

/-- Counterexample to C2 as stated: in the main.js second variant at
`dt = 1`, the particle `pFade` retires although after integration its
`y` is not below the floor `-10` and its faded opacity `0.05` is not
`≤ 0` — the code's threshold is `0.1`, not `0`. -/
theorem retirement_condition_counterexample :
    pFade.active = true ∧ (updateParticleV2 1 pFade).active = false ∧
    ¬ ((integratedPos 1 pFade.position pFade.velocity).y < -10 ∨
       fadedOp03 1 pFade.opacity ≤ 0) := by
  refine ⟨rfl, ?_, ?_⟩ <;>
    norm_num [updateParticleV2, pFade, integratedPos, fadedOp03, Vec3.add,
      Vec3.smul, Vec3.zero]

/-- C2 (amended).  Retirement condition: an active particle is deactivated
by the main.js second variant exactly when, after integration, its `y` is
below `-10` or its faded opacity is `≤ 0.1`; by the scene/SceneManager.js
variant exactly when its `y` is below `-10` or its faded opacity is `≤ 0`;
and on deactivation both set `opacity = 0` and `position =
originalPosition`; under no other condition is the particle retired. -/
theorem retirement_condition (dt : ℚ) (p q : Particle)
    (hp : p.active = true) (hq : q.active = true) :
    (((updateParticleV2 dt p).active = false ↔
        ((integratedPos dt p.position p.velocity).y < -10 ∨
         fadedOp03 dt p.opacity ≤ 0.1)) ∧
     ((updateParticleV2 dt p).active = false →
        (updateParticleV2 dt p).opacity = 0 ∧
        (updateParticleV2 dt p).position = p.originalPosition)) ∧
    (((updateParticleSM dt q).active = false ↔
        ((integratedPos dt q.position q.velocity).y < -10 ∨
         fadedOp03 dt q.opacity ≤ 0)) ∧
     ((updateParticleSM dt q).active = false →
        (updateParticleSM dt q).opacity = 0 ∧
        (updateParticleSM dt q).position = q.originalPosition)) := by
  constructor
  · simp only [updateParticleV2, hp, if_true]
    split_ifs with hc
    · exact ⟨⟨fun _ => hc, fun _ => rfl⟩, fun _ => ⟨rfl, rfl⟩⟩
    · exact ⟨⟨fun h => absurd h (by simp), fun h => absurd h hc⟩,
             fun h => absurd h (by simp)⟩
  · simp only [updateParticleSM, hq, if_true]
    split_ifs with hc
    · exact ⟨⟨fun _ => hc, fun _ => rfl⟩, fun _ => ⟨rfl, rfl⟩⟩
    · exact ⟨⟨fun h => absurd h (by simp), fun h => absurd h hc⟩,
             fun h => absurd h (by simp)⟩

/-- Counterexample to C4 as stated: in the part_000/part_001 variant the
per-step decrement of `velocity.y` is `9.8 * deltaTime * 0.1`, i.e. an
effective gravity constant of `0.98`, so no gravity constant in the
claimed range 5–9.8 reproduces the update's effect on velocity. -/
theorem gravity_range_counterexample :
    ¬ ∃ g : ℚ, 5 ≤ g ∧ g ≤ 9.8 ∧
      ∀ (dt : ℚ) (q : SimpleParticle), q.active = true →
        (updateParticleSimple dt q).velocity.y = q.velocity.y - g * dt := by
  rintro ⟨g, hg5, -, hall⟩
  have h := hall 1 sFall rfl
  have hval : (updateParticleSimple 1 sFall).velocity.y = -20 - 49/50 := by
    norm_num [updateParticleSimple, sFall, integratedPos, Vec3.add, Vec3.smul,
      Vec3.zero]
  have hvy : sFall.velocity.y = -20 := rfl
  rw [hval, hvy] at h
  nlinarith

/-- C4 (amended).  Gravity step: each per-frame update sets an active
particle's `velocity.y` to `(velocity.y - GRAVITY * deltaTime) * DRAG`,
with `GRAVITY = 8` and `DRAG = 0.98` in both main.js variants and
sceneManager.js (inside the claimed 5–9.8 range), but with
`GRAVITY = 9.8 * 0.1 = 0.98` — below the claimed range — and
`DRAG = 0.995` in scene/SceneManager.js, and the same `0.98` gravity with
no drag in part_000/part_001. -/
theorem gravity_step (dt : ℚ) (p : Particle) (q : SimpleParticle)
    (hp : p.active = true) (hq : q.active = true) :
    (updateParticle dt p).velocity.y = 0.98 * (p.velocity.y - 8 * dt) ∧
    (updateParticleV2 dt p).velocity.y = 0.98 * (p.velocity.y - 8 * dt) ∧
    (updateParticleSM dt p).velocity.y = 0.995 * (p.velocity.y - 9.8 * dt * 0.1) ∧
    (updateParticleSimple dt q).velocity.y = q.velocity.y - 9.8 * dt * 0.1 := by
  refine ⟨?_, ?_, ?_, ?_⟩
  · simp only [updateParticle, hp, if_true]
    split_ifs <;> simp [Vec3.smul]
  · simp only [updateParticleV2, hp, if_true]
    split_ifs <;> simp [Vec3.smul]
  · simp only [updateParticleSM, hp, if_true]
    split_ifs <;> simp [Vec3.smul]
  · simp only [updateParticleSimple, hq, if_true]
    split_ifs <;> simp

/-- Witness for C4 at `dt = 1` on concrete active particles. -/
theorem gravity_step_witness :
    pBurst.active = true ∧ sFall.active = true ∧
    ((updateParticle 1 pBurst).velocity.y = 0.98 * (pBurst.velocity.y - 8 * 1) ∧
     (updateParticleV2 1 pBurst).velocity.y = 0.98 * (pBurst.velocity.y - 8 * 1) ∧
     (updateParticleSM 1 pBurst).velocity.y = 0.995 * (pBurst.velocity.y - 9.8 * 1 * 0.1) ∧
     (updateParticleSimple 1 sFall).velocity.y = sFall.velocity.y - 9.8 * 1 * 0.1) :=
  ⟨rfl, rfl, gravity_step 1 pBurst sFall rfl rfl⟩

/-- Auxiliary bounded-lifetime induction for the main.js / sceneManager.js
update: once `n` frames at a fixed `deltaTime > 0` cover the particle's
opacity in fade, the `n + 1`-st frame has retired it. -/
theorem lifetime_aux (dt : ℚ) (hdt : 0 < dt) :
    ∀ (n : ℕ) (p : Particle), p.opacity ≤ 0.4 * dt * n →
      (updateIter dt (n + 1) p).active = false := by
  intro n
  induction n with
  | zero =>
      intro p hop
      by_cases h : p.active = true
      · have hfade : fadedOpMain dt p.opacity ≤ 0 := by
          have hneg : p.opacity - dt * 0.4 ≤ 0 := by
            simp only [Nat.cast_zero, mul_zero] at hop
            nlinarith
          simp [fadedOpMain, hneg]
        show (updateParticle dt p).active = false
        simp only [updateParticle, h, if_true]
        split_ifs with hcond
        · rfl
        · exact absurd (Or.inr hfade) hcond
      · have h' : p.active = false := by simpa using h
        rw [updateIter_inactive dt 1 p h']
        exact h'
  | succ n ih =>
      intro p hop
      by_cases h : p.active = true
      · show (updateIter dt (n + 1) (updateParticle dt p)).active = false
        by_cases h2 : (updateParticle dt p).active = true
        · obtain ⟨-, heq, -⟩ := updateParticle_survivor dt p h2
          apply ih
          rw [heq]
          have hexp : (0.4 : ℚ) * dt * ((n : ℚ) + 1) = 0.4 * dt * n + 0.4 * dt := by
            ring
          push_cast at hop
          linarith
        · have h2' : (updateParticle dt p).active = false := by simpa using h2
          rw [updateIter_inactive dt (n + 1) _ h2']
          exact h2'
      · have h' : p.active = false := by simpa using h
        rw [updateIter_inactive dt (n + 2) p h']
        exact h'

/-- C5.  Bounded lifetime: with fixed `deltaTime > 0` and no further
trigger calls, a particle retires within finitely many frames — as soon as
`n` frames of fade (`0.4 * deltaTime` each) cover its opacity, frame
`n + 1` has set `active = false`; this bound `opacity / (0.4 * dt) + 1`
lies within the claimed `opacity / (FADE_RATE * dt)` plus fall time, and
in particular no particle stays active forever. -/
theorem bounded_lifetime (dt : ℚ) (p : Particle) (n : ℕ) (hdt : 0 < dt)
    (hop : p.opacity ≤ 0.4 * dt * n) :
    (updateIter dt (n + 1) p).active = false :=
  lifetime_aux dt hdt n p hop

/-- Witness for C5: the burst particle (opacity 1) is inactive after four
frames at `dt = 1`. -/
theorem bounded_lifetime_witness :
    (0 : ℚ) < 1 ∧ pBurst.opacity ≤ 0.4 * 1 * ((3 : ℕ) : ℚ) ∧
    (updateIter 1 (3 + 1) pBurst).active = false :=
  ⟨by norm_num, by norm_num [pBurst],
   bounded_lifetime 1 pBurst 3 (by norm_num) (by norm_num [pBurst])⟩

/-- Witness for C2 at `dt = 1` on concrete active particles. -/
theorem retirement_condition_witness :
    pFade.active = true ∧ pBurst.active = true ∧
    ((((updateParticleV2 1 pFade).active = false ↔
        ((integratedPos 1 pFade.position pFade.velocity).y < -10 ∨
         fadedOp03 1 pFade.opacity ≤ 0.1)) ∧
      ((updateParticleV2 1 pFade).active = false →
        (updateParticleV2 1 pFade).opacity = 0 ∧
        (updateParticleV2 1 pFade).position = pFade.originalPosition)) ∧
     (((updateParticleSM 1 pBurst).active = false ↔
        ((integratedPos 1 pBurst.position pBurst.velocity).y < -10 ∨
         fadedOp03 1 pBurst.opacity ≤ 0)) ∧
      ((updateParticleSM 1 pBurst).active = false →
        (updateParticleSM 1 pBurst).opacity = 0 ∧
        (updateParticleSM 1 pBurst).position = pBurst.originalPosition))) :=
  ⟨rfl, rfl, retirement_condition 1 pFade pBurst rfl rfl⟩

/-- Mega-confetti touches every particle and adds none. -/
theorem megaAux_length (mcos msin : ℚ → ℚ) (mpi : ℚ) (rnd : ℕ → ℚ) :
    ∀ (i : ℕ) (l : List Particle), (megaAux mcos msin mpi rnd i l).length = l.length := by
  intro i l
  induction l generalizing i with
  | nil => rfl
  | cons p ps ih => simp [megaAux, ih]

/-- Gentle rain touches a prefix of the pool and adds no particle. -/
theorem gentleAux_length (cap : ℕ) (rnd : ℕ → ℚ) :
    ∀ (cnt i : ℕ) (l : List Particle), (gentleAux cap rnd cnt i l).length = l.length := by
  intro cnt i l
  induction l generalizing cnt i with
  | nil => rfl
  | cons p ps ih =>
      simp only [gentleAux]
      split_ifs <;> simp [ih]

/-- A localized burst touches a subset of the pool and adds no particle. -/
theorem burstAux_length (cap : ℕ) (center : Vec3) (rnd : ℕ → ℚ) :
    ∀ (cnt i : ℕ) (l : List Particle), (burstAux cap center rnd cnt i l).length = l.length := by
  intro cnt i l
  induction l generalizing cnt i with
  | nil => rfl
  | cons p ps ih =>
      simp only [burstAux]
      split_ifs <;> simp [ih]

/-- No single engine operation changes the size of the pool. -/
theorem applyOp_length (op : Op) (pool : List Particle) :
    (applyOp op pool).length = pool.length := by
  cases op with
  | mega mcos msin mpi rnd =>
      simp only [applyOp, triggerMegaConfetti]
      exact megaAux_length mcos msin mpi rnd 0 pool
  | gentle rnd =>
      simp only [applyOp, triggerGentleConfetti]
      exact gentleAux_length 25 rnd 0 0 pool
  | burst c rnd =>
      simp only [applyOp, createParticleBurst]
      exact burstAux_length 15 c rnd 0 0 pool
  | update dt => simp [applyOp, updateParticles]
  | reset => simp [applyOp]

/-- No sequence of engine operations changes the size of the pool. -/
theorem applyOps_length (ops : List Op) (pool : List Particle) :
    (applyOps ops pool).length = pool.length := by
  induction ops generalizing pool with
  | nil => rfl
  | cons op ops ih =>
      show (applyOps ops (applyOp op pool)).length = pool.length
      rw [ih (applyOp op pool), applyOp_length]

/-- C6.  Pool conservation: for every sequence of trigger/update/reset
operations, the pool keeps its construction-time size and the number of
active particles never exceeds it — in particular at most `maxParticles`
particles of a pool built by `createOptimizedParticles` are active after
any sequence ending in an update. -/
theorem pool_conservation (ops : List Op) (pool : List Particle) (n : ℕ) :
    (applyOps ops pool).length = pool.length ∧
    countActive (applyOps ops pool) ≤ pool.length ∧
    (createOptimizedParticles n).length = n ∧
    countActive (applyOps ops (createOptimizedParticles n)) ≤ n := by
  have h1 : (applyOps ops pool).length = pool.length := applyOps_length ops pool
  have hcnt : ∀ l : List Particle, countActive l ≤ l.length := fun l =>
    List.length_filter_le _ l
  refine ⟨h1, ?_, by simp [createOptimizedParticles], ?_⟩
  · exact h1 ▸ hcnt (applyOps ops pool)
  · have h2 := applyOps_length ops (createOptimizedParticles n)
    have h3 : (createOptimizedParticles n).length = n := by
      simp [createOptimizedParticles]
    calc countActive (applyOps ops (createOptimizedParticles n))
        ≤ (applyOps ops (createOptimizedParticles n)).length :=
          hcnt (applyOps ops (createOptimizedParticles n))
      _ = n := by rw [h2, h3]

/-- Active count over a cons cell. -/
theorem countActive_cons (p : Particle) (l : List Particle) :
    countActive (p :: l) = countActive l + (if p.active = true then 1 else 0) := by
  by_cases h : p.active <;> simp [countActive, List.filter_cons, h]

/-- Once the running count exceeds the cap, gentle rain leaves the rest of
the pool untouched. -/
theorem gentleAux_stop (cap : ℕ) (rnd : ℕ → ℚ) :
    ∀ (cnt i : ℕ) (l : List Particle), cap < cnt → gentleAux cap rnd cnt i l = l := by
  intro cnt i l h
  induction l generalizing i with
  | nil => rfl
  | cons p ps ih => simp [gentleAux, h, ih]

/-- Gentle rain activates at most `cap + 1 - cnt` further particles. -/
theorem gentleAux_countActive (cap : ℕ) (rnd : ℕ → ℚ) :
    ∀ (l : List Particle) (cnt i : ℕ),
      countActive (gentleAux cap rnd cnt i l) ≤ countActive l + (cap + 1 - cnt) := by
  intro l
  induction l with
  | nil => intro cnt i; simp [gentleAux]
  | cons p ps ih =>
      intro cnt i
      by_cases h : cap < cnt
      · rw [gentleAux_stop cap rnd cnt i (p :: ps) h]
        exact Nat.le_add_right _ _
      · rw [gentleAux, if_neg h]
        have h1 := ih (cnt + 1) (i + 6)
        have h2 : countActive (gentleActivate rnd i p ::
            gentleAux cap rnd (cnt + 1) (i + 6) ps) =
            countActive (gentleAux cap rnd (cnt + 1) (i + 6) ps) + 1 := by
          simp [countActive, List.filter_cons, gentleActivate]
        have h3 := countActive_cons p ps
        omega

/-- Once the running count exceeds the cap, a localized burst leaves the
rest of the pool untouched. -/
theorem burstAux_stop (cap : ℕ) (center : Vec3) (rnd : ℕ → ℚ) :
    ∀ (cnt i : ℕ) (l : List Particle), cap < cnt →
      burstAux cap center rnd cnt i l = l := by
  intro cnt i l h
  induction l generalizing i with
  | nil => rfl
  | cons p ps ih => simp [burstAux, h, ih]

/-- A localized burst activates at most `cap + 1 - cnt` further
particles. -/
theorem burstAux_countActive (cap : ℕ) (center : Vec3) (rnd : ℕ → ℚ) :
    ∀ (l : List Particle) (cnt i : ℕ),
      countActive (burstAux cap center rnd cnt i l) ≤ countActive l + (cap + 1 - cnt) := by
  intro l
  induction l with
  | nil => intro cnt i; simp [burstAux]
  | cons p ps ih =>
      intro cnt i
      by_cases hg : p.active = true ∨ cap < cnt
      · rw [burstAux, if_pos hg]
        have h1 := ih cnt i
        have h2 := countActive_cons p (burstAux cap center rnd cnt i ps)
        have h3 := countActive_cons p ps
        omega
      · rw [burstAux, if_neg hg]
        by_cases hd : Vec3.distSq p.position center < 25
        · rw [if_pos hd]
          have h1 := ih (cnt + 1) (i + 6)
          have h2 : countActive (burstActivate center rnd i p ::
              burstAux cap center rnd (cnt + 1) (i + 6) ps) =
              countActive (burstAux cap center rnd (cnt + 1) (i + 6) ps) + 1 := by
            simp [countActive, List.filter_cons, burstActivate]
          have h3 := countActive_cons p ps
          have hcap : ¬ cap < cnt := fun hc => hg (Or.inr hc)
          omega
        · rw [if_neg hd]
          have h1 := ih cnt i
          have h2 := countActive_cons p (burstAux cap center rnd cnt i ps)
          have h3 := countActive_cons p ps
          omega

/-- Counterexample to C3 as stated: `triggerGentleConfetti` (guard
constant 25) on a fresh pool of 27 inactive particles — so `k = 25` is
smaller than the pool size — activates 26 particles, one more than the
claimed bound `k`. -/
theorem burst_density_cap_counterexample :
    (createOptimizedParticles 27).length = 27 ∧
    countActive (createOptimizedParticles 27) = 0 ∧
    countActive (triggerGentleConfetti rndHalf (createOptimizedParticles 27)) = 26 ∧
    ¬ countActive (triggerGentleConfetti rndHalf (createOptimizedParticles 27)) ≤ 25 := by
  have h : countActive (triggerGentleConfetti rndHalf (createOptimizedParticles 27)) = 26 := by
    norm_num [triggerGentleConfetti, gentleAux, gentleActivate, rndHalf,
      createOptimizedParticles, countActive, List.replicate, List.filter_cons]
  refine ⟨by simp [createOptimizedParticles],
          by simp [createOptimizedParticles, countActive, List.replicate],
          h, by rw [h]; omega⟩

/-- C3 (amended).  Burst density cap: a capped trigger whose guard
constant is `k` (gentle rain with `count > k` skipping, the localized
burst of scene/SceneManager.js likewise) activates at most `k + 1`
particles beyond those already active — the guard is checked before
activating, so it admits one particle more than `k` — and the number of
active particles never exceeds the pool size. -/
theorem burst_density_cap (cap : ℕ) (rnd : ℕ → ℚ) (center : Vec3)
    (pool : List Particle) :
    countActive (gentleAux cap rnd 0 0 pool) ≤ countActive pool + (cap + 1) ∧
    countActive (burstAux cap center rnd 0 0 pool) ≤ countActive pool + (cap + 1) ∧
    countActive (gentleAux cap rnd 0 0 pool) ≤ pool.length ∧
    countActive (burstAux cap center rnd 0 0 pool) ≤ pool.length := by
  have h1 := gentleAux_countActive cap rnd pool 0 0
  have h2 := burstAux_countActive cap center rnd pool 0 0
  refine ⟨by simpa using h1, by simpa using h2, ?_, ?_⟩
  · calc countActive (gentleAux cap rnd 0 0 pool)
        ≤ (gentleAux cap rnd 0 0 pool).length := List.length_filter_le _ _
      _ = pool.length := gentleAux_length cap rnd 0 0 pool
  · calc countActive (burstAux cap center rnd 0 0 pool)
        ≤ (burstAux cap center rnd 0 0 pool).length := List.length_filter_le _ _
      _ = pool.length := burstAux_length cap center rnd 0 0 pool

end Celebration
